import Mathlib

/-!
# Verification of the TerrariaMonitorTool console engine

A shallow embedding of the virtual terminal buffer engine and the menu
state machine implemented in `src/Console.cpp` / `src/Console.h`, together
with theorems settling the specification claims about them.

Machine integers are modelled as `Nat`/`Int`; `size_t` arithmetic that can
wrap is taken modulo `2 ^ 64`.  Interactions with the physical Windows
console (real cursor positions reported by `GetConsoleScreenBufferInfo`,
cursor rows after a physical write, console width) are environment inputs
and appear as explicit parameters.  Undefined behaviour of the C++ source
(out-of-range `std::vector`/`std::wstring` element access, a thrown
`std::out_of_range`, a negative row cast to `size_t`) is modelled by
returning `none`.
-/

set_option autoImplicit false

namespace TMT

/-- `2 ^ 64`, the modulus of `size_t` arithmetic. -/
def W64 : Nat := 2 ^ 64

/-- Wrapping `size_t` addition. -/
def wrapAdd (a b : Nat) : Nat := (a + b) % W64

/-- Wrapping `size_t` subtraction (`a - b` as a C++ `size_t`). -/
def wrapSub (a b : Nat) : Nat := (a + (W64 - b % W64)) % W64

/-- Conversion of an integer back into the signed 16-bit `short` type of
the `cursorScrollOffset` field (`src/Console.h:1573`): the compound
assignment `cursorScrollOffset += scrolledLines` (`src/Console.cpp:462`)
promotes to `int`, adds, and narrows back, reducing the sum modulo
`2^16` into `[-32768, 32767]`. -/
def wrapShort (x : Int) : Int := (x + 32768) % 65536 - 32768

/-! ## Escape-sequence scanner

`Console::OutputBuffer::print` classifies runs of characters with the
regular expression `TERMINAL_SEQUENCE_REGEX` (`src/Console.cpp:289-295`):

`^ESC(?:[\w=>]|\([0B]|(?:\[(?:!p|(?:\??\d{0,4} ?[a-zA-Z])|(?:\d{1,3};\d{1,3}[fH])|(?:[34]8;[25];\d{1,3};\d{1,3};\d{1,3})))|(?:\]4;\d{1,3};rgb;\d{1,3};\d{1,3};\d{1,3}BEL))`

The matcher below implements this pattern directly.  All character
classes used by consecutive greedy pieces are disjoint, so the greedy,
non-backtracking scan below coincides with ECMAScript backtracking
semantics for this particular pattern; alternatives are tried in the
pattern's order. -/

/-- The escape character `VIRTUAL_TERMINAL_SEQUENCE_ESCAPE` (`src/Console.h:105`). -/
def VTSEscape : Char := '\x1B'

/-- The character class `\w` of the terminal-sequence pattern. -/
def isRegexWordChar (c : Char) : Bool := c.isAlpha || c.isDigit || c = '_'

/-- Greedily consume up to `bound` decimal digits; returns the number of
digits consumed and the remaining characters. -/
def takeDigits : Nat → List Char → Nat × List Char
  | 0, cs => (0, cs)
  | _ + 1, [] => (0, [])
  | bound + 1, c :: rest =>
    if c.isDigit then
      let p := takeDigits bound rest
      (p.1 + 1, p.2)
    else (0, c :: rest)

/-- Match `\d{1,3}` followed by the literal separator `sep`; returns the
number of characters consumed and the remaining input. -/
def matchDigitsSep (sep : Char) (cs : List Char) : Option (Nat × List Char) :=
  let p := takeDigits 3 cs
  if p.1 = 0 then none
  else
    match p.2 with
    | c :: r2 => if c = sep then some (p.1 + 1, r2) else none
    | [] => none

/-- Match the CSI alternative `\??\d{0,4} ?[a-zA-Z]`. -/
def matchCsiParam (cs : List Char) : Option Nat :=
  let q : Nat × List Char := match cs with | '?' :: r => (1, r) | _ => (0, cs)
  let d := takeDigits 4 q.2
  let s : Nat × List Char := match d.2 with | ' ' :: r => (1, r) | _ => (0, d.2)
  match s.2 with
  | c :: _ => if c.isAlpha then some (q.1 + d.1 + s.1 + 1) else none
  | [] => none

/-- Match the CSI alternative `\d{1,3};\d{1,3}[fH]`. -/
def matchCsiRowCol (cs : List Char) : Option Nat :=
  match matchDigitsSep ';' cs with
  | none => none
  | some p1 =>
    let d := takeDigits 3 p1.2
    if d.1 = 0 then none
    else
      match d.2 with
      | c :: _ => if c = 'f' ∨ c = 'H' then some (p1.1 + d.1 + 1) else none
      | [] => none

/-- Match the CSI alternative `[34]8;[25];\d{1,3};\d{1,3};\d{1,3}`. -/
def matchCsiColor (cs : List Char) : Option Nat :=
  match cs with
  | a :: '8' :: ';' :: b :: ';' :: rest =>
    if (a = '3' ∨ a = '4') ∧ (b = '2' ∨ b = '5') then
      match matchDigitsSep ';' rest with
      | none => none
      | some p1 =>
        match matchDigitsSep ';' p1.2 with
        | none => none
        | some p2 =>
          let d := takeDigits 3 p2.2
          if d.1 = 0 then none else some (5 + p1.1 + p2.1 + d.1)
    else none
  | _ => none

/-- Match the body of the bracket alternative
`!p|(?:\??\d{0,4} ?[a-zA-Z])|(?:\d{1,3};\d{1,3}[fH])|(?:[34]8;[25];\d{1,3};\d{1,3};\d{1,3})`,
with the alternatives tried in the pattern's order. -/
def matchCsiBody (cs : List Char) : Option Nat :=
  match cs with
  | '!' :: 'p' :: _ => some 2
  | _ => (matchCsiParam cs).orElse fun _ => (matchCsiRowCol cs).orElse fun _ => matchCsiColor cs

/-- Match the OSC alternative body `4;\d{1,3};rgb;\d{1,3};\d{1,3};\d{1,3}BEL`. -/
def matchOscBody (cs : List Char) : Option Nat :=
  match cs with
  | '4' :: ';' :: rest =>
    match matchDigitsSep ';' rest with
    | none => none
    | some p1 =>
      match p1.2 with
      | 'r' :: 'g' :: 'b' :: ';' :: r2 =>
        match matchDigitsSep ';' r2 with
        | none => none
        | some p2 =>
          match matchDigitsSep ';' p2.2 with
          | none => none
          | some p3 =>
            let d := takeDigits 3 p3.2
            if d.1 = 0 then none
            else
              match d.2 with
              | c :: _ => if c = '\x07' then some (2 + p1.1 + 4 + p2.1 + p3.1 + d.1 + 1) else none
              | [] => none
      | _ => none
  | _ => none

/-- The escape-sequence scanner: given the input starting at the current
character, return the total length (escape byte included) of the longest
recognised virtual terminal sequence starting there, or `none`.
Embeds the `std::regex_search` call against `TERMINAL_SEQUENCE_REGEX`
performed at `src/Console.cpp:339`. -/
def matchTerminalSequence (cs : List Char) : Option Nat :=
  match cs with
  | [] => none
  | e :: rest =>
    if e = VTSEscape then
      match rest with
      | [] => none
      | c :: rest2 =>
        if isRegexWordChar c ∨ c = '=' ∨ c = '>' then some 2
        else if c = '(' then
          match rest2 with
          | d :: _ => if d = '0' ∨ d = 'B' then some 3 else none
          | [] => none
        else if c = '[' then (matchCsiBody rest2).map (· + 2)
        else if c = ']' then (matchOscBody rest2).map (· + 2)
        else none
    else none

/-! ## Data model of the output buffer engine -/

/-- A Windows console cursor coordinate (`COORD` / `WinConsoleCursorCoordinates`).
The source stores `SHORT` fields; only non-negative values occur in the
modelled operations, so coordinates are natural numbers here. -/
structure WinCoord where
  x : Nat
  y : Nat
  deriving Repr, DecidableEq

/-- `Console::OutputBuffer::BufferData` (`src/Console.h:1534-1577`), without
the opaque Windows buffer handle. -/
structure BufferData where
  /-- `contents`: one stored string per tracked console row. -/
  contents : List (List Char)
  /-- `contentsCursorData`: per row, the visible column → character offset map. -/
  contentsCursorData : List (List Nat)
  /-- `savedCursors`: `std::vector`-backed stack, top at the back. -/
  savedCursors : List WinCoord
  /-- `cursorStartPos`: the screen's origin coordinate. -/
  cursorStartPos : WinCoord
  /-- `cursorScrollOffset`: number of lines this buffer has scrolled. -/
  cursorScrollOffset : Int
  /-- `cursorIsVisible`. -/
  cursorIsVisible : Bool
  deriving Repr, DecidableEq

/-- The default-constructed `BufferData` (all fields as in the in-class
initialisers of `BufferDataStruct`). -/
def BufferData.init : BufferData :=
  { contents := [], contentsCursorData := [], savedCursors := [],
    cursorStartPos := ⟨0, 0⟩, cursorScrollOffset := 0, cursorIsVisible := true }

/-- `Console::OutputBuffer`: one primary `BufferData` plus a stack of
alternate `BufferData` (top of the `std::stack` at the head). -/
structure OutputBuffer where
  mainBufferData : BufferData
  altBufferData : List BufferData
  deriving Repr, DecidableEq

/-- The `OutputBuffer` constructor (`src/Console.cpp:92-100`): the primary
buffer's `cursorStartPos` is initialised from the real console cursor,
which is an environment input. -/
def OutputBuffer.init (cur : WinCoord) : OutputBuffer :=
  { mainBufferData := { BufferData.init with cursorStartPos := cur }, altBufferData := [] }

/-- `Console::OutputBuffer::getCurrentBufferData` (`src/Console.cpp:502-513`).
`custom` is the global `programSettings.useCustomBufferBehavior` flag. -/
def OutputBuffer.getCurrentBufferData (buf : OutputBuffer) (custom currentHandleBuffer : Bool) :
    BufferData :=
  if custom ∧ currentHandleBuffer then buf.mainBufferData
  else
    match buf.altBufferData with
    | [] => buf.mainBufferData
    | b :: _ => b

/-- Write back through the (mutable) reference returned by
`getCurrentBufferData()`: replaces the top alternate buffer, or the
primary buffer when no alternate buffer exists. -/
def OutputBuffer.setCurrentBufferData (buf : OutputBuffer) (bd : BufferData) : OutputBuffer :=
  match buf.altBufferData with
  | [] => { buf with mainBufferData := bd }
  | _ :: rest => { buf with altBufferData := bd :: rest }

/-- `Console::OutputBuffer::getCurrentBufferNum` (`src/Console.cpp:150-154`). -/
def OutputBuffer.getCurrentBufferNum (buf : OutputBuffer) : Nat :=
  buf.altBufferData.length

/-- Environment inputs of one `print` call: the real console cursor
position on entry (`getCursorPos()`), the console width
(`bufferInfo.dwMaximumWindowSize.X`), and the real cursor row reported
after the physical write of a string containing line terminators. -/
structure PrintEnv where
  cur0 : WinCoord
  width : Nat
  rowAfter : Nat
  deriving Repr, DecidableEq

/-- The loop state of the character-scanning loop of `print`
(`src/Console.cpp:331-449`).  `contents`/`ccd` are the current output
buffer's `contents` and `contentsCursorData` being mutated in place. -/
structure PrintLoopState where
  contents : List (List Char)
  ccd : List (List Nat)
  cursor : WinCoord
  termSeqLength : Nat
  isDetected : Bool
  termSeqEndPos : Nat
  atEndOfBuffer : Option Bool
  newlineCount : Nat
  deriving Repr, DecidableEq

/-- Populate a row list with empty rows while `y` is not yet a valid index
(the `while (cursorYPos >= contents.size()) emplace_back()` loops,
`src/Console.cpp:350-353`). -/
def padListTo {α : Type} (l : List (List α)) (y : Nat) : List (List α) :=
  l ++ List.replicate (y + 1 - l.length) []

/-- The loop `while (X > cursorPos.size()) push_back(empty ? 0 : back + 1)`
(`src/Console.cpp:370-376`), as a structural recursion on the exact
iteration count: each round appends exactly one element, so the loop runs
`x - cpos.length` times. -/
def padCursorColsAux : Nat → List Nat → List Nat
  | 0, cpos => cpos
  | c + 1, cpos =>
    padCursorColsAux c (cpos ++ [if cpos.isEmpty then 0 else (cpos.getLastD 0 + 1) % W64])

def padCursorCols (x : Nat) (cpos : List Nat) : List Nat :=
  padCursorColsAux (x - cpos.length) cpos

/-- Apply `f` to every element whose position (starting at `j`) is `≥ k`
(the shift loop `for (j = startPos; j < cursorPos.size(); j++)
cursorPos[j] -= len`, `src/Console.cpp:407-409`). -/
def mapFromIdxAux (k : Nat) (f : Nat → Nat) : Nat → List Nat → List Nat
  | _, [] => []
  | j, v :: rest => (if k ≤ j then f v else v) :: mapFromIdxAux k f (j + 1) rest

def mapFromIdx (k : Nat) (f : Nat → Nat) (l : List Nat) : List Nat :=
  mapFromIdxAux k f 0 l

/-- One iteration of the character-scanning loop of `print` for character
`c`, where `tail` is the rest of the input after `c`, `strPos` the current
index, `startY` the handle buffer's `cursorStartPos.Y` and `width` the
console width.  Returns `none` on C++ undefined behaviour (out-of-range
element access / negative row). -/
def printStep (startY width strPos : Nat) (addToBuffer : Bool) (c : Char) (tail : List Char)
    (st : PrintLoopState) : Option PrintLoopState :=
  -- leave a previously detected sequence once past its final character
  let isDet0 := st.isDetected && decide (strPos ≤ st.termSeqEndPos)
  -- attempt to match a virtual terminal sequence at an escape character
  let md := if c = VTSEscape then matchTerminalSequence (c :: tail) else none
  let isDet := match md with | some _ => true | none => isDet0
  let seqEnd := match md with | some len => strPos + len - 1 | none => st.termSeqEndPos
  let nl := st.newlineCount + (if c = '\n' then 1 else 0)
  if addToBuffer then
    -- cursorYPos = currentCursorPos.Y - cursorStartPos.Y; a negative value,
    -- converted to size_t, makes the row-population loop effectively diverge
    if st.cursor.y < startY then none
    else
      let yPos := st.cursor.y - startY
      let contents := padListTo st.contents yPos
      let ccd := padListTo st.ccd yPos
      let line := contents.getD yPos []
      let cpos := ccd.getD yPos []
      -- computed once for the whole call and then frozen
      let atEnd := st.atEndOfBuffer.getD (decide (cpos.length ≤ st.cursor.x + 1))
      -- pad the line with spaces up to the cursor column
      let padN := st.cursor.x - line.length
      let cpos1 := cpos ++ (List.range padN).map fun k => line.length + k
      let line1 := line ++ List.replicate padN ' '
      let cpos2 := padCursorCols st.cursor.x cpos1
      let upd : Option (List Char × List Nat) :=
        if atEnd then
          -- append path
          let cposA := if isDet then cpos2 else cpos2 ++ [line1.length]
          let lineA := if c = '\n' then line1 else line1 ++ [c]
          some (lineA, cposA)
        else
          -- overwrite path
          if st.cursor.x < cpos2.length then
            let cur := cpos2.getD st.cursor.x 0
            let startPos := if 0 < st.cursor.x then cpos2.getD (st.cursor.x - 1) 0 else 0
            let seqLen := wrapSub cur startPos
            let er : Option (List Char × List Nat) :=
              if 1 < seqLen then
                -- std::wstring::erase(pos, len) throws when pos > size
                if line1.length < startPos then none
                else some (line1.take startPos ++ line1.drop (startPos + seqLen),
                           mapFromIdx startPos (fun v => wrapSub v seqLen) cpos2)
              else if st.cursor.x = cpos2.length - 1 then
                if cpos2.getLastD 0 < line1.length then
                  some (line1.take (cpos2.getLastD 0 + 1), cpos2)
                else some (line1, cpos2)
              else some (line1, cpos2)
            match er with
            | none => none
            | some lc =>
              if c = '\n' then some lc
              else
                -- contents[cursorPos[X] + termSeqLength] = c, with cursorPos[X]
                -- re-read after the shift; out-of-range write is UB
                let idx := wrapAdd (lc.2.getD st.cursor.x 0) st.termSeqLength
                if idx < lc.1.length then some (lc.1.set idx c, lc.2) else none
          else none
      match upd with
      | none => none
      | some lc =>
        let cursorNext :=
          if c = '\n' then WinCoord.mk 0 (st.cursor.y + 1)
          else if isDet then st.cursor
          else if st.cursor.x + 1 = width then WinCoord.mk 0 (st.cursor.y + 1)
          else WinCoord.mk (st.cursor.x + 1) st.cursor.y
        let tsl := if c = '\n' then 0 else if isDet then st.termSeqLength + 1 else 0
        some { contents := contents.set yPos lc.1, ccd := ccd.set yPos lc.2,
               cursor := cursorNext, termSeqLength := tsl, isDetected := isDet,
               termSeqEndPos := seqEnd, atEndOfBuffer := some atEnd, newlineCount := nl }
  else
    some { st with isDetected := isDet, termSeqEndPos := seqEnd, newlineCount := nl }

/-- The full character-scanning loop of `print`. -/
def printLoop (startY width : Nat) (addToBuffer : Bool) :
    List Char → Nat → PrintLoopState → Option PrintLoopState
  | [], _, st => some st
  | c :: rest, strPos, st =>
    match printStep startY width strPos addToBuffer c rest st with
    | none => none
    | some st1 => printLoop startY width addToBuffer rest (strPos + 1) st1

/-- The number of line terminators in a string (`newlineCount`). -/
def countNewlines (l : List Char) : Nat := l.count '\n'

/-- The scanning phase of `print`: runs the loop over the whole input and
stores the updated `contents`/`contentsCursorData` back into the current
buffer.  Returns the updated engine and the counted `newlineCount`. -/
def OutputBuffer.printCore (buf : OutputBuffer) (custom : Bool) (str : List Char)
    (addToBuffer : Bool) (env : PrintEnv) : Option (OutputBuffer × Nat) :=
  let bd := buf.getCurrentBufferData custom false
  let hd := buf.getCurrentBufferData custom true
  let st0 : PrintLoopState :=
    { contents := bd.contents, ccd := bd.contentsCursorData, cursor := env.cur0,
      termSeqLength := 0, isDetected := false, termSeqEndPos := 0,
      atEndOfBuffer := none, newlineCount := 0 }
  match printLoop hd.cursorStartPos.y env.width addToBuffer str 0 st0 with
  | none => none
  | some st =>
    some (buf.setCurrentBufferData
            { bd with contents := st.contents, contentsCursorData := st.ccd },
          st.newlineCount)

/-- The scroll bookkeeping performed after the physical write when the
input contained line terminators (`src/Console.cpp:453-475`).
`scrolledLines = newlineCount - (finalCursorPos.Y - initialCursorPos.Y)`,
where `initialCursorPos` is the real cursor before the write (equal to
the cursor read on entry, nothing having been written in between) and
`finalCursorPos.Y` is the environment input `env.rowAfter`. -/
def OutputBuffer.applyScrollBookkeeping (buf : OutputBuffer) (custom : Bool) (n : Nat)
    (env : PrintEnv) : OutputBuffer :=
  if 0 < n then
    if 0 < (n : Int) - ((env.rowAfter : Int) - (env.cur0.y : Int)) ∧
        0 < (buf.getCurrentBufferData custom true).cursorStartPos.y then
      let scrolled : Int := (n : Int) - ((env.rowAfter : Int) - (env.cur0.y : Int))
      let s := scrolled.toNat
      let bd := buf.getCurrentBufferData custom false
      let buf1 := buf.setCurrentBufferData
        { bd with cursorScrollOffset := wrapShort (bd.cursorScrollOffset + scrolled) }
      let buf2 :=
        if custom then
          { buf1 with mainBufferData :=
              { buf1.mainBufferData with cursorStartPos :=
                  ⟨buf1.mainBufferData.cursorStartPos.x,
                   buf1.mainBufferData.cursorStartPos.y - s⟩ } }
        else buf1
      let bd2 := buf2.getCurrentBufferData custom false
      buf2.setCurrentBufferData
        { bd2 with savedCursors := bd2.savedCursors.map fun p => ⟨p.x, p.y - s⟩ }
    else buf
  else buf

/-- `Console::OutputBuffer::print` (`src/Console.cpp:283-484`). -/
def OutputBuffer.print (buf : OutputBuffer) (custom : Bool) (str : List Char)
    (addToBuffer : Bool) (env : PrintEnv) : Option OutputBuffer :=
  match buf.printCore custom str addToBuffer env with
  | none => none
  | some p => some (p.1.applyScrollBookkeeping custom p.2 env)

/-! ## The remaining engine operations -/

/-- `Console::OutputBuffer::clear` (`src/Console.cpp:263-281`).  The
cursor repositioning and the trailing `ESC[0J` erase sequence are written
with `addToBuffer = false` and contain no line terminator, so they only
affect the physical console, not any tracked field. -/
def OutputBuffer.clear (buf : OutputBuffer) (custom : Bool) (clearBuffer : Bool) : OutputBuffer :=
  if clearBuffer then
    let bd := buf.getCurrentBufferData custom false
    buf.setCurrentBufferData { bd with contents := [], contentsCursorData := [] }
  else buf

/-- `Console::OutputBuffer::restoreSavedCursorPos` (`src/Console.cpp:229-243`).
The first component is the restored coordinate, which is also the
coordinate passed to `setCursorPos` when a restore happens; `none` means
the stack was empty, no pop occurred, and `setCursorPos` was not called. -/
def OutputBuffer.restoreSavedCursorPos (buf : OutputBuffer) (custom : Bool) :
    Option WinCoord × OutputBuffer :=
  let bd := buf.getCurrentBufferData custom false
  match bd.savedCursors.getLast? with
  | none => (none, buf)
  | some p =>
    (some p, buf.setCurrentBufferData { bd with savedCursors := bd.savedCursors.dropLast })

/-- `Console::OutputBuffer::createAltBuffer` (`src/Console.cpp:117-148`).
`handleOk` tells whether `CreateConsoleScreenBuffer` returned a valid
handle (an environment input).  In virtualized mode the preparatory
`clear()` call uses `clearBuffer = false` and the optional
visibility-sync write uses `addToBuffer = false`, so neither changes a
tracked field; the new buffer is a default-constructed `BufferData`. -/
def OutputBuffer.createAltBuffer (buf : OutputBuffer) (custom : Bool) (handleOk : Bool) :
    Option Nat × OutputBuffer :=
  if handleOk then
    (some buf.getCurrentBufferNum,
     { buf with altBufferData := BufferData.init :: buf.altBufferData })
  else (none, buf)

/-- The replay loop of `restorePreviousBuffer` (`src/Console.cpp:167-172`):
`print(contents[i], false)` for every stored line, with `println(false)`
between consecutive lines.  `envs` supplies the environment of the `k`-th
`print` call. -/
def replayContents (custom : Bool) :
    List (List Char) → OutputBuffer → (Nat → PrintEnv) → Nat → Option OutputBuffer
  | [], buf, _, _ => some buf
  | [line], buf, envs, k => buf.print custom line false (envs k)
  | line :: next :: rest, buf, envs, k =>
    match buf.print custom line false (envs k) with
    | none => none
    | some b1 =>
      match b1.print custom ['\n'] false (envs (k + 1)) with
      | none => none
      | some b2 => replayContents custom (next :: rest) b2 envs (k + 2)

/-- `Console::OutputBuffer::restorePreviousBuffer` (`src/Console.cpp:156-187`).
In virtualized mode: clear the (still current) top buffer's contents, pop
it, and replay the now-current buffer's stored lines; the final
cursor-visibility synchronisation, when visibility changed across the
pop, is emitted with `addToBuffer = false` and does not modify any
tracked field. -/
def OutputBuffer.restorePreviousBuffer (buf : OutputBuffer) (custom : Bool)
    (envs : Nat → PrintEnv) : Option OutputBuffer :=
  match buf.altBufferData with
  | [] => some buf
  | _ :: rest =>
    if custom then
      let buf1 := buf.clear custom true
      let buf2 := { buf1 with altBufferData := buf1.altBufferData.tail }
      let bd := buf2.getCurrentBufferData custom false
      replayContents custom bd.contents buf2 envs 0
    else some { buf with altBufferData := rest }

/-! ## Menu option model (`Console::MenuOptionList`, `src/Console.h` / `src/Console.cpp`)

The textual rendering fields (`prefix`, `suffix`, `separator`, `width`)
and the action vector only influence the characters printed to the
console, never the tracked menu state, and are omitted; lists modelled
here carry the `DEFAULT_ACTIONS` handler pair.  Console output performed
by the handlers is summarised by environment parameters (`RedrawEnv`,
`StatusEnv`): the values read back from the console (cursor positions,
scroll-offset deltas) are inputs, while the emitted text is not part of
the menu state. -/

/-- `MAX_MENU_OPTION_LINES` (`src/Console.h:115`). -/
def MAX_MENU_OPTION_LINES : Nat := 9

/-- `STATUS_MESSAGE_LIFETIME` (`src/Console.h:2121`). -/
def STATUS_MESSAGE_LIFETIME : Nat := 5

/-- `2 ^ 16`, the modulus of `unsigned short` arithmetic. -/
def W16 : Nat := 2 ^ 16

/-- Wrapping `unsigned short` subtraction. -/
def wrapSub16 (a b : Nat) : Nat := (a + (W16 - b % W16)) % W16

/-- `std::towlower` restricted to the ASCII range, as applied to hotkeys. -/
def towlowerChar (c : Char) : Char :=
  if 'A' ≤ c ∧ c ≤ 'Z' then Char.ofNat (c.toNat + 32) else c

/-- `Console::MenuOptionPadding`. -/
structure MenuOptionPadding where
  top : Bool
  left : Bool
  right : Bool
  bottom : Bool
  deriving Repr, DecidableEq, Inhabited

/-- `Console::MenuOptionStruct` (`src/Console.cpp:652-661`). -/
structure MenuOption where
  option : List Char
  hotkey : Option Char
  disabled : Bool
  padding : MenuOptionPadding
  deriving Repr, DecidableEq, Inhabited

/-- The `MenuOptionStruct` constructor, which stores the hotkey through
`getLowercaseHotkey` (`src/Console.cpp:61-68`). -/
def mkMenuOption (label : List Char) (hotkey : Option Char) (disabled : Bool)
    (padding : MenuOptionPadding) : MenuOption :=
  { option := label, hotkey := hotkey.map towlowerChar, disabled := disabled, padding := padding }

/-- `MenuOptionStruct::getTotalLineCount` (`src/Console.cpp:665-673`). -/
def MenuOption.getTotalLineCount (o : MenuOption) : Nat :=
  1 + (if o.padding.top then 1 else 0) + (if o.padding.bottom then 1 else 0)

/-- The tracked state of a `Console::MenuOptionList`
(`src/Console.h:2126-2179`). -/
structure MenuOptionList where
  options : List MenuOption
  maxMenuOptionLines : Nat
  cursorStartPos : Option WinCoord
  selectedOptionNum : Option Nat
  topMenuOptionNum : Nat
  bottomMenuOptionNum : Nat
  statusMessage : List Char
  statusMessageIssueTime : Nat
  deriving Repr, DecidableEq, Inhabited

/-- `MenuOptionList::isValidOption` (`src/Console.cpp:1138-1142`). -/
def MenuOptionList.isValidOption (m : MenuOptionList) (n : Nat) : Bool :=
  n < m.options.length

/-- `MenuOptionList::setSelectedOption` (`src/Console.cpp:1011-1018`). -/
def MenuOptionList.setSelectedOption (m : MenuOptionList) (n : Nat) : MenuOptionList :=
  if m.isValidOption n then { m with selectedOptionNum := some n } else m

/-- `MenuOptionList::setTopMenuOptionNum` (`src/Console.cpp:1019-1026`). -/
def MenuOptionList.setTopMenuOptionNum (m : MenuOptionList) (n : Nat) : MenuOptionList :=
  if m.isValidOption n then { m with topMenuOptionNum := n } else m

/-- `MenuOptionList::setBottomMenuOptionNum` (`src/Console.cpp:1027-1034`). -/
def MenuOptionList.setBottomMenuOptionNum (m : MenuOptionList) (n : Nat) : MenuOptionList :=
  if m.isValidOption n then { m with bottomMenuOptionNum := n } else m

/-- `MenuOptionList::setCursorStartPos` (`src/Console.cpp:986-991`). -/
def MenuOptionList.setCursorStartPos (m : MenuOptionList) (p : WinCoord) : MenuOptionList :=
  { m with cursorStartPos := some p }

/-- `MenuOptionList::setStatusMessage` (`src/Console.cpp:1058-1063`). -/
def MenuOptionList.setStatusMessage (m : MenuOptionList) (msg : List Char) : MenuOptionList :=
  { m with statusMessage := msg }

/-- `MenuOptionList::hasActiveStatusMessage` (`src/Console.cpp:1036-1040`). -/
def MenuOptionList.hasActiveStatusMessage (m : MenuOptionList) : Bool :=
  0 < m.statusMessageIssueTime

/-- `MenuOptionList::hasExpiredStatusMessage` (`src/Console.cpp:1041-1057`).
`now` is the clock reading taken by `std::time`; `difftime` is exact on
these integral values.  A `true` result resets the issue timestamp. -/
def MenuOptionList.hasExpiredStatusMessage (m : MenuOptionList) (now : Nat) :
    Bool × MenuOptionList :=
  if 0 < m.statusMessageIssueTime then
    if (STATUS_MESSAGE_LIFETIME : Int) < (now : Int) - (m.statusMessageIssueTime : Int) then
      (true, { m with statusMessageIssueTime := 0 })
    else (false, m)
  else (false, m)

/-- `MenuOptionList::issueStatusMessage` (`src/Console.cpp:1064-1075`). -/
def MenuOptionList.issueStatusMessage (m : MenuOptionList) (now : Nat) :
    Bool × MenuOptionList :=
  if m.statusMessage ≠ [] then
    (true, { m with statusMessage := [], statusMessageIssueTime := now })
  else (false, m)

/-- `MenuOptionList::getCursorPos(menuOptionNum)` (`src/Console.cpp:1079-1111`):
the screen coordinate of entry `n`, assuming `n` lies in the rendered
viewport.  Empty when no origin is recorded or `n` is out of range. -/
def MenuOptionList.getCursorPosFor (m : MenuOptionList) (n : Nat) : Option WinCoord :=
  match m.cursorStartPos with
  | none => none
  | some start =>
    if n < m.options.length then
      let o := m.options.getD n default
      let base := start.y +
        ((List.range (n - m.topMenuOptionNum)).map fun k =>
          (m.options.getD (m.topMenuOptionNum + k) default).getTotalLineCount).sum
      let y1 := base + (if 0 < m.topMenuOptionNum then 1 else 0) +
        (if o.padding.top then 1 else 0)
      let y2 := y1 - (if (m.options.getD m.topMenuOptionNum default).padding.top then 1 else 0)
      some ⟨start.x + (if o.padding.left then 3 else 0), y2⟩
    else none

/-! ## The default navigation handler
(`Console::MenuOptionList::DEFAULT_NAVIGATION_ACTIONS`, `src/Console.cpp:692-869`) -/

def VK_RETURN : Nat := 0x0D
def VK_ESCAPE : Nat := 0x1B
def VK_UP : Nat := 0x26
def VK_DOWN : Nat := 0x28

/-- A key event (`KEY_EVENT_RECORD`): virtual key code and character. -/
structure WinKey where
  vkCode : Nat
  uChar : Char
  deriving Repr, DecidableEq

/-- One execution of the arrow-key `do` body (`src/Console.cpp:715-731`):
move the selection one step without wrapping; the second component tells
whether the selection moved (which sets `stopProcessingInput`). -/
def arrowStep (down : Bool) (size sel : Nat) : Nat × Bool :=
  if down then
    if sel < wrapSub size 1 then (sel + 1, true) else (sel, false)
  else
    if 0 < sel then (sel - 1, true) else (sel, false)

/-- The arrow-key `do … while` loop (`src/Console.cpp:713-734`), which
repeats the step while the newly reached entry is disabled and strictly
inside the list.  `fuel` bounds the iteration count; the loop moves the
selection monotonically in one direction, so `opts.length + 1` steps
always suffice.  `none` models an out-of-range `menuOptions[...]` access
or exhausted fuel. -/
def arrowLoop (opts : List MenuOption) (down : Bool) :
    Nat → Nat → Bool → Option (Nat × Bool)
  | 0, _, _ => none
  | fuel + 1, sel, stop =>
    let p := arrowStep down opts.length sel
    let stop1 := stop || p.2
    match opts.get? p.1 with
    | none => none
    | some o =>
      if o.disabled ∧ 0 < p.1 ∧ p.1 < wrapSub opts.length 1 then
        arrowLoop opts down fuel p.1 stop1
      else some (p.1, stop1)

/-- The numeric-hotkey walk (`src/Console.cpp:744-753`):
`for (i = 1; newSel < size && i < numberKey; i++) { if (opts[newSel].hotkey) continue; newSel++; }`.
Note that `continue` still executes the loop increment `i++`, so an entry
with a hotkey consumes a count step without advancing the selection.
Structural recursion on the remaining count `numberKey - i` (the counter
`i` starts at 1 and increments every round). -/
def digitWalkAux (opts : List MenuOption) : Nat → Nat → Nat
  | 0, newSel => newSel
  | c + 1, newSel =>
    if h : newSel < opts.length then
      digitWalkAux opts c
        (if (opts.get ⟨newSel, h⟩).hotkey.isSome then newSel else newSel + 1)
    else newSel

def digitWalk (opts : List MenuOption) (numberKey top : Nat) : Nat :=
  digitWalkAux opts (numberKey - 1) top

/-- The dedicated-hotkey scan (`src/Console.cpp:766-776`): first enabled
entry whose stored (lowercased) hotkey equals the lowercased key. -/
def hotkeySearch (opts : List MenuOption) (keyChar : Char) : Option Nat :=
  opts.findIdx? fun o => o.hotkey == some keyChar && !o.disabled

/-- The per-entry line-count accumulation of the inner loop
(`src/Console.cpp:821-827`). -/
def viewportLineCount (o : MenuOption) (i newTop newSel lineCount : Nat) : Nat :=
  let lc1 := lineCount + o.getTotalLineCount
  if i = newTop ∧ o.padding.top then lc1 - 1
  else if i = newSel ∧ o.padding.bottom then lc1 - 1
  else lc1

/-- The inner `for` loop of the scroll-down viewport recomputation
(`src/Console.cpp:818-831`): accumulate line counts from `newTop` until
the selection is covered or the budget `MAX_MENU_OPTION_LINES` is hit;
returns the final `(i, lineCount)`.  Structural recursion on the exact
remaining iteration count `newSel + 1 - i` (the condition `i ≤ newSel`
holds exactly while the count is positive). -/
def viewportInnerForAux (opts : List MenuOption) (newSel newTop : Nat) :
    Nat → Nat → Nat → Option (Nat × Nat)
  | 0, i, lineCount => some (i, lineCount)
  | c + 1, i, lineCount =>
    match opts.get? i with
    | none => none
    | some o =>
      let lc2 := viewportLineCount o i newTop newSel lineCount
      if MAX_MENU_OPTION_LINES ≤ lc2 then some (i, lc2)
      else viewportInnerForAux opts newSel newTop c (i + 1) lc2

def viewportInnerFor (opts : List MenuOption) (newSel newTop i lineCount : Nat) :
    Option (Nat × Nat) :=
  viewportInnerForAux opts newSel newTop (newSel + 1 - i) i lineCount

/-- The `while (true)` loop recomputing `topMenuOptionNum` when scrolling
down (`src/Console.cpp:815-837`).  Each round advances the candidate top
by one and stops at the latest once it passes the selection, so
`newSel + 2` fuel always suffices from any starting point at or below
the selection. -/
def viewportScrollLoop (opts : List MenuOption) (newSel : Nat) :
    Nat → Nat → Option Nat
  | 0, _ => none
  | fuel + 1, newTop =>
    let nt := newTop + 1
    match viewportInnerFor opts newSel nt nt 0 with
    | none => none
    | some p =>
      if newSel < p.1 then some nt
      else
        match opts.get? p.1 with
        | none => none
        | some oi =>
          if p.2 < MAX_MENU_OPTION_LINES ∧ ¬oi.padding.top then some nt
          else viewportScrollLoop opts newSel fuel nt

/-- Environment of one full redraw (`console.printMenuOptions`): the real
cursor position used when the menu origin is not yet recorded, and the
cursor-scroll-offset delta observed across the redraw. -/
structure RedrawEnv where
  cursor : WinCoord
  scrollDelta : Nat
  deriving Repr, DecidableEq

/-- The body of the `MenuOption` printing loop of
`Console::printMenuOptions` (`src/Console.cpp:1290-1325`), restricted to
its effect on `bottomMenuOptionNum` and the consumed line budget.
Structural recursion on the remaining entry count `opts.length - i`. -/
def menuRenderLoopAux (opts : List MenuOption) (top maxMenuLines : Nat) :
    Nat → Nat → Nat → Nat → Nat × Nat
  | 0, _, lines, bottom => (bottom, lines)
  | c + 1, i, lines, bottom =>
    if maxMenuLines ≤ lines then (bottom, lines)
    else
      let o := opts.getD i default
      let lines1 := if o.padding.top ∧ top < i ∧ lines < maxMenuLines then lines + 1 else lines
      let lines2 := if lines1 < maxMenuLines then lines1 + 1 else lines1
      let bottom1 := if lines1 < maxMenuLines ∧ i ≠ top then bottom + 1 else bottom
      let lines3 := if o.padding.bottom ∧ lines2 < maxMenuLines then lines2 + 1 else lines2
      menuRenderLoopAux opts top maxMenuLines c (i + 1) lines3 bottom1

def menuRenderLoop (opts : List MenuOption) (top maxMenuLines i lines bottom : Nat) :
    Nat × Nat :=
  menuRenderLoopAux opts top maxMenuLines (opts.length - i) i lines bottom

/-- The final origin adjustment of `printMenuOptions`
(`src/Console.cpp:1343-1352`): when the console scrolled during the
redraw, pull the recorded menu origin up by the offset delta. -/
def menuScrollAdjust (m2 : MenuOptionList) (delta : Nat) : MenuOptionList :=
  if 0 < delta then
    match m2.cursorStartPos with
    | some cp => m2.setCursorStartPos ⟨cp.x, cp.y - delta⟩
    | none => m2
  else m2

/-- The effect of `Console::printMenuOptions(menuOptions, false)`
(`src/Console.cpp:1242-1356`) on the tracked menu state: record the menu
origin when unset, recompute `bottomMenuOptionNum` from the rendering
loop, and pull the origin up when the console scrolled during the
redraw.  The printed characters themselves go to the output buffer and
are not menu state. -/
def MenuOptionList.printMenuOptionsEffect (m : MenuOptionList) (env : RedrawEnv) :
    MenuOptionList :=
  let m1 :=
    match m.cursorStartPos with
    | none => m.setCursorStartPos ⟨env.cursor.x + 2, env.cursor.y⟩
    | some _ => m
  let selected := m1.selectedOptionNum.getD 0
  let maxMenuLines :=
    if selected < wrapSub m1.options.length 1 then wrapSub16 m1.maxMenuOptionLines 1
    else m1.maxMenuOptionLines
  let lines0 := if 0 < m1.topMenuOptionNum then 1 else 0
  let p := menuRenderLoop m1.options m1.topMenuOptionNum maxMenuLines
    m1.topMenuOptionNum lines0 m1.topMenuOptionNum
  menuScrollAdjust (m1.setBottomMenuOptionNum p.1) env.scrollDelta

/-- The result of one action handler: updated menu state, updated
selection reference, and the `stopProcessingInput` pair. -/
structure NavResult where
  menu : MenuOptionList
  selection : Option Nat
  stopKey : Bool
  stopList : Bool
  deriving Repr, DecidableEq

/-- The selection-target computation of the navigation handler: the key
dispatch of `src/Console.cpp:713-777`, producing `newSelectionNum` and
the `stopProcessingInput` pair. -/
def navSelectTarget (key : WinKey) (m : MenuOptionList) (curSel : Option Nat) :
    Option (Nat × Bool × Bool) :=
  let prev := curSel.getD 1
  if key.vkCode = VK_DOWN ∨ key.vkCode = VK_UP then
    match arrowLoop m.options (decide (key.vkCode = VK_DOWN)) (m.options.length + 1)
        prev false with
    | none => none
    | some p => some (p.1, p.2, false)
  else if 0x31 ≤ key.vkCode ∧ key.vkCode ≤ 0x39 then
    let numberKey := key.vkCode - 0x30
    let s := digitWalk m.options numberKey m.topMenuOptionNum
    if s < m.options.length then some (s, true, true) else some (s, false, false)
  else if key.uChar ≠ Char.ofNat 0 then
    match hotkeySearch m.options (towlowerChar key.uChar) with
    | some i => some (i, true, true)
    | none => some (prev, false, false)
  else some (prev, false, false)

/-- The user-interface update of the navigation handler
(`src/Console.cpp:779-862`): when the selection changed, record it, then
either scroll the viewport and redraw the whole menu (selection moved
outside `[topVisible, bottomVisible]`) or perform the cheap two-glyph
marker update (which dereferences the entry coordinates of the old and
new selection). -/
def navApplyUpdate (m : MenuOptionList) (curSel : Option Nat) (newSel : Nat)
    (sk sl : Bool) (env : RedrawEnv) : Option NavResult :=
  let prev := curSel.getD 1
  let top := m.topMenuOptionNum
  let bottom := m.bottomMenuOptionNum
  if newSel ≠ prev then
    let m1 := m.setSelectedOption newSel
    if newSel < top ∨ bottom < newSel then
      match m.cursorStartPos with
      | none => none
      | some _ =>
        let m2opt : Option MenuOptionList :=
          if newSel < top then
            some (if 0 < top then m1.setTopMenuOptionNum (wrapSub top (wrapSub prev newSel))
                  else m1)
          else if bottom < wrapSub m1.options.length 1 then
            match viewportScrollLoop m1.options newSel (newSel + 2) top with
            | none => none
            | some nt => some (m1.setTopMenuOptionNum nt)
          else some m1
        match m2opt with
        | none => none
        | some m2 =>
          some { menu := m2.printMenuOptionsEffect env, selection := some newSel,
                 stopKey := sk, stopList := sl }
    else
      match m1.getCursorPosFor prev, m1.getCursorPosFor newSel with
      | some _, some _ =>
        some { menu := m1, selection := some newSel, stopKey := sk, stopList := sl }
      | _, _ => none
  else some { menu := m, selection := curSel, stopKey := sk, stopList := sl }

/-- `DEFAULT_NAVIGATION_ACTIONS` (`src/Console.cpp:692-869`).  The
handler's console interactions (saving/restoring the console cursor and
the redraw) are environment-visible output; their effect on the menu
state is `printMenuOptionsEffect`.  `none` models a dereference of an
empty `std::optional` (missing menu origin or out-of-range entry
coordinate) or an out-of-range element access. -/
def navigationAction (key : WinKey) (m : MenuOptionList) (curSel : Option Nat)
    (env : RedrawEnv) : Option NavResult :=
  match navSelectTarget key m curSel with
  | none => none
  | some r => navApplyUpdate m curSel r.1 r.2.1 r.2.2 env

/-- `DEFAULT_ESCAPE_ACTION` (`src/Console.cpp:871-890`). -/
def escapeAction (key : WinKey) (m : MenuOptionList) (curSel : Option Nat) : NavResult :=
  if key.vkCode = VK_ESCAPE then
    { menu := m, selection := none, stopKey := true, stopList := true }
  else { menu := m, selection := curSel, stopKey := false, stopList := false }

/-- Run the `DEFAULT_ACTIONS` pipeline for one key
(`src/Console.cpp:892-895`, dispatch loop `src/Console.cpp:1430-1437`):
the navigation handler first, the escape handler only when neither stop
flag was set. -/
def runDefaultActions (key : WinKey) (m : MenuOptionList) (curSel : Option Nat)
    (env : RedrawEnv) : Option NavResult :=
  match navigationAction key m curSel env with
  | none => none
  | some r1 => if r1.stopKey || r1.stopList then some r1
               else some (escapeAction key r1.menu r1.selection)

/-! ## The selection loop (`Console::waitForSelection`, `src/Console.cpp:1358-1450`) -/

/-- Environment of one status-message print attempt: the scroll-offset
delta observed while printing and the clock reading for `issue`. -/
structure StatusEnv where
  scrollDelta : Nat
  now : Nat
  deriving Repr, DecidableEq

/-- The `printMenuOptionStatusMessage` lambda (`src/Console.cpp:1381-1408`)
restricted to its effect on the menu state: when a status message is
staged, optionally pull the menu origin up by the observed scroll delta
(dereferencing the recorded origin), then issue the message; reports
whether a message was displayed. -/
def printStatusMessageEffect (m : MenuOptionList) (env : StatusEnv) :
    Option (Bool × MenuOptionList) :=
  if m.statusMessage ≠ [] then
    let m1opt : Option MenuOptionList :=
      if 0 < env.scrollDelta then
        match m.cursorStartPos with
        | none => none
        | some cp => some (m.setCursorStartPos ⟨cp.x, cp.y - env.scrollDelta⟩)
      else some m
    match m1opt with
    | none => none
    | some m1 => some (true, (m1.issueStatusMessage env.now).2)
  else some (false, m)

/-- Environment of a `waitForSelection` run: the key event (or timeout)
returned by the `k`-th `waitForInput` call, and the per-iteration
environments of redraws, status prints and expiry checks. -/
structure SelectionEnv where
  keys : Nat → Option WinKey
  redrawEnvs : Nat → RedrawEnv
  statusEnvs : Nat → StatusEnv
  expiryNow : Nat → Nat

/-- The `while` loop of `waitForSelection` (`src/Console.cpp:1428-1446`).
`fuel` bounds the number of iterations; `none` reports exhausted fuel or
an error inside a handler.  `stopList` is the persisted
`stopProcessingInput.second`. -/
def selectionLoop (env : SelectionEnv) :
    Nat → Nat → MenuOptionList → Option Nat → Option WinKey → Bool →
    Option (Option Nat × MenuOptionList)
  | 0, _, _, _, _, _ => none
  | fuel + 1, idx, m, curSel, key, stopList =>
    let proceed := !stopList &&
      (match key with
       | some k => decide (k.vkCode ≠ VK_RETURN)
       | none => m.hasActiveStatusMessage)
    if proceed then
      let step1 : Option (MenuOptionList × Option Nat × Bool) :=
        match key with
        | some k =>
          match runDefaultActions k m curSel (env.redrawEnvs idx) with
          | none => none
          | some r => some (r.menu, r.selection, r.stopList)
        | none => some (m, curSel, stopList)
      match step1 with
      | none => none
      | some q =>
        match printStatusMessageEffect q.1 (env.statusEnvs idx) with
        | none => none
        | some sp =>
          -- when nothing was printed, poll expiry (consuming the timestamp);
          -- the subsequent clear(false, false) only touches the console
          let m3 := if sp.1 then sp.2 else (sp.2.hasExpiredStatusMessage (env.expiryNow idx)).2
          let key2 := if q.2.2 then key else env.keys idx
          selectionLoop env fuel (idx + 1) m3 q.2.1 key2 q.2.2
    else some (curSel, m)

/-- `Console::waitForSelection` (`src/Console.cpp:1358-1450`): initialise
the selection reference to the recorded selection or `0`, print a staged
status message, wait for the first key (with an input-buffer flush), and
run the loop.  Returns the final selection reference together with the
final menu state. -/
def waitForSelection (m : MenuOptionList) (env : SelectionEnv) (fuel : Nat) :
    Option (Option Nat × MenuOptionList) :=
  let curSel : Option Nat := some (m.selectedOptionNum.getD 0)
  match printStatusMessageEffect m (env.statusEnvs 0) with
  | none => none
  | some p => selectionLoop env fuel 1 p.2 curSel (env.keys 0) false

/-! ## Derived definitions used by the theorems -/

/-- Iterated presses of the same key through the navigation handler,
threading the menu state and the selection reference. -/
def iterateNavigation (key : WinKey) (envs : Nat → RedrawEnv) :
    Nat → MenuOptionList → Option Nat → Option (MenuOptionList × Option Nat)
  | 0, m, curSel => some (m, curSel)
  | j + 1, m, curSel =>
    match iterateNavigation key envs j m curSel with
    | none => none
    | some p =>
      match navigationAction key p.1 p.2 (envs j) with
      | none => none
      | some r => some (r.menu, r.selection)

/-! ## Operation sequences over the output buffer engine

One constructor per public mutating operation of
`Console::OutputBuffer`, each carrying its environment inputs. -/

/-- The scroll offsets of the alternate screens, bottom of the stack
first. -/
def altOffsets (buf : OutputBuffer) : List Int :=
  (buf.altBufferData.map fun b => b.cursorScrollOffset).reverse

theorem getCurrentBufferData_setCurrentBufferData (buf : OutputBuffer) (bd : BufferData)
    (custom : Bool) :
    (buf.setCurrentBufferData bd).getCurrentBufferData custom false = bd := by
  cases buf with
  | mk main alt =>
    cases alt with
    | nil => simp [OutputBuffer.setCurrentBufferData, OutputBuffer.getCurrentBufferData]
    | cons b rest => simp [OutputBuffer.setCurrentBufferData, OutputBuffer.getCurrentBufferData]

theorem setCurrentBufferData_altLength (buf : OutputBuffer) (bd : BufferData) :
    (buf.setCurrentBufferData bd).altBufferData.length = buf.altBufferData.length := by
  cases buf with
  | mk main alt => cases alt with
    | nil => rfl
    | cons b rest => rfl

theorem setCurrentBufferData_self (buf : OutputBuffer) (custom : Bool) :
    buf.setCurrentBufferData (buf.getCurrentBufferData custom false) = buf := by
  cases buf with
  | mk main alt =>
    cases alt with
    | nil => simp [OutputBuffer.setCurrentBufferData, OutputBuffer.getCurrentBufferData]
    | cons b rest => simp [OutputBuffer.setCurrentBufferData, OutputBuffer.getCurrentBufferData]

/-! ## Lemmas about the `print` loop -/

theorem printStep_newlineCount (startY width strPos : Nat) (add : Bool) (c : Char)
    (tail : List Char) (st st1 : PrintLoopState)
    (h : printStep startY width strPos add c tail st = some st1) :
    st1.newlineCount = st.newlineCount + (if c = '\n' then 1 else 0) := by
  unfold printStep at h
  by_cases hadd : add = true
  · subst hadd
    simp only [if_true] at h
    split at h
    · exact absurd h (by simp)
    · split at h
      · exact absurd h (by simp)
      · obtain ⟨rfl⟩ := Option.some.inj h
        rfl
  · simp only [Bool.not_eq_true] at hadd
    subst hadd
    simp only [Bool.false_eq_true, if_false] at h
    obtain ⟨rfl⟩ := Option.some.inj h
    rfl

theorem printLoop_newlineCount (startY width : Nat) (add : Bool) :
    ∀ (str : List Char) (strPos : Nat) (st st1 : PrintLoopState),
      printLoop startY width add str strPos st = some st1 →
      st1.newlineCount = st.newlineCount + countNewlines str
  | [], _, st, st1, h => by
    simp only [printLoop] at h
    obtain ⟨rfl⟩ := Option.some.inj h
    simp [countNewlines]
  | c :: rest, strPos, st, st1, h => by
    simp only [printLoop] at h
    split at h
    · exact absurd h (by simp)
    · rename_i stMid hstep
      have h1 := printStep_newlineCount startY width strPos add c rest st stMid hstep
      have h2 := printLoop_newlineCount startY width add rest (strPos + 1) stMid st1 h
      rw [h2, h1]
      by_cases hc : c = '\n' <;>
        simp [countNewlines, List.count_cons, hc] <;> omega

theorem printStep_false (startY width strPos : Nat) (c : Char) (tail : List Char)
    (st : PrintLoopState) :
    ∃ st1, printStep startY width strPos false c tail st = some st1 ∧
      st1.contents = st.contents ∧ st1.ccd = st.ccd := by
  refine ⟨_, rfl, rfl, rfl⟩

theorem printLoop_false (startY width : Nat) :
    ∀ (str : List Char) (strPos : Nat) (st : PrintLoopState),
      ∃ st1, printLoop startY width false str strPos st = some st1 ∧
        st1.contents = st.contents ∧ st1.ccd = st.ccd
  | [], _, st => ⟨st, rfl, rfl, rfl⟩
  | c :: rest, strPos, st => by
    obtain ⟨stMid, hstep, hc1, hc2⟩ := printStep_false startY width strPos c rest st
    obtain ⟨st1, hloop, hd1, hd2⟩ := printLoop_false startY width rest (strPos + 1) stMid
    refine ⟨st1, ?_, hc1 ▸ hd1, hc2 ▸ hd2⟩
    simp only [printLoop, hstep, hloop]

theorem print_false_eq (buf : OutputBuffer) (custom : Bool) (str : List Char) (env : PrintEnv) :
    buf.print custom str false env =
      some (buf.applyScrollBookkeeping custom (countNewlines str) env) := by
  unfold OutputBuffer.print OutputBuffer.printCore
  obtain ⟨st1, hloop, hc1, hc2⟩ := printLoop_false
    (buf.getCurrentBufferData custom true).cursorStartPos.y env.width str 0
    { contents := (buf.getCurrentBufferData custom false).contents,
      ccd := (buf.getCurrentBufferData custom false).contentsCursorData, cursor := env.cur0,
      termSeqLength := 0, isDetected := false, termSeqEndPos := 0,
      atEndOfBuffer := none, newlineCount := 0 }
  have hn := printLoop_newlineCount
    (buf.getCurrentBufferData custom true).cursorStartPos.y env.width false str 0 _ _ hloop
  simp only [hloop, hn, hc1, hc2]
  have : { buf.getCurrentBufferData custom false with
      contents := (buf.getCurrentBufferData custom false).contents,
      contentsCursorData := (buf.getCurrentBufferData custom false).contentsCursorData } =
      buf.getCurrentBufferData custom false := rfl
  rw [this, setCurrentBufferData_self, Nat.zero_add]

theorem applyScroll_zero (buf : OutputBuffer) (custom : Bool) (env : PrintEnv) :
    buf.applyScrollBookkeeping custom 0 env = buf := rfl

theorem applyScroll_stay (buf : OutputBuffer) (custom : Bool) (n : Nat) (env : PrintEnv)
    (h : ¬(0 < (n : Int) - ((env.rowAfter : Int) - (env.cur0.y : Int)) ∧
      0 < (buf.getCurrentBufferData custom true).cursorStartPos.y)) :
    buf.applyScrollBookkeeping custom n env = buf := by
  unfold OutputBuffer.applyScrollBookkeeping
  by_cases hn : 0 < n
  · rw [if_pos hn, if_neg h]
  · rw [if_neg hn]

theorem applyScroll_noscroll (buf : OutputBuffer) (custom : Bool) (n : Nat) (env : PrintEnv)
    (h : (n : Int) - ((env.rowAfter : Int) - (env.cur0.y : Int)) ≤ 0) :
    buf.applyScrollBookkeeping custom n env = buf :=
  applyScroll_stay buf custom n env fun hcon => absurd hcon.1 (by omega)

/-- **C2** (code bug).  Track the write `"A" ESC[90m "BC"` on an empty
buffer, then overwrite column 1 with `"Z"`.  Column 1 lies strictly
before the last occupied column 2, and the span
`[columnIndex[0], columnIndex[1]) = [0, 6)` covers more than one
character, so the claim requires the erase-and-shift to leave
`columnIndex` monotonically non-decreasing and the line uncorrupted.
Instead the shift loop of `src/Console.cpp:407-409` starts at the
character offset `startPos = 0` interpreted as a column index and
decrements `columnIndex[0] = 0` by the span length 6, wrapping the
`size_t` to `2^64 - 6`: the resulting column index `[2^64 - 6, 0, 1]` is
not monotone and column 0's character `A` has been deleted from the
line, which now reads `"ZC"`. -/
theorem overwrite_escape_sequence_corruption :
    (((OutputBuffer.init ⟨0, 0⟩).print false ("A\x1b[90mBC".toList) true ⟨⟨0, 0⟩, 80, 0⟩).bind
        (fun b1 => b1.print false ("Z".toList) true ⟨⟨1, 0⟩, 80, 0⟩)).map
        (fun b2 => (b2.mainBufferData.contents, b2.mainBufferData.contentsCursorData)) =
      some ([['Z', 'C']], [[W64 - 6, 0, 1]]) ∧
    (((OutputBuffer.init ⟨0, 0⟩).print false ("A\x1b[90mBC".toList) true ⟨⟨0, 0⟩, 80, 0⟩).bind
        (fun b1 => b1.print false ("Z".toList) true ⟨⟨1, 0⟩, 80, 0⟩)).map
        (fun b2 =>
          decide (List.Pairwise (· ≤ ·) (b2.mainBufferData.contentsCursorData.getD 0 []))) =
      some false := by
  exact ⟨by decide, by decide⟩

/-! ## Claim C5: digit-key selection -/

/-- **C5** (code bug).  With entries `[Alpha (hotkey a), Beta (no hotkey)]`
fully visible from the top, the first (and only) entry *without* an
explicit hotkey is `Beta` at index 1 — and the rendered menu numbers it
`1`, because `printMenuOptions` (`src/Console.cpp:1311`) advances the
displayed number only for hotkey-less entries.  Yet pressing the digit
`1` selects index 0, the entry *with* hotkey `a`: the walk of
`src/Console.cpp:744-753` lets `continue` fall through to the loop
increment, so entries with hotkeys consume a count step instead of being
skipped. -/
theorem digit_key_selects_hotkeyed_entry :
    (navigationAction ⟨0x31, '1'⟩
        ⟨[mkMenuOption ("Alpha".toList) (some 'a') false ⟨false, false, false, false⟩,
          mkMenuOption ("Beta".toList) none false ⟨false, false, false, false⟩],
         9, some ⟨2, 0⟩, some 1, 0, 1, [], 0⟩
        (some 1) ⟨⟨0, 0⟩, 0⟩).map (fun r => (r.selection, r.stopList)) =
      some (some 0, true) ∧
    (mkMenuOption ("Alpha".toList) (some 'a') false ⟨false, false, false, false⟩).hotkey =
      some 'a' ∧
    (mkMenuOption ("Beta".toList) none false ⟨false, false, false, false⟩).hotkey = none ∧
    digitWalk
      [mkMenuOption ("Alpha".toList) (some 'a') false ⟨false, false, false, false⟩,
       mkMenuOption ("Beta".toList) none false ⟨false, false, false, false⟩] 1 0 = 0 := by
  exact ⟨by decide, by decide, by decide, by decide⟩

/-! ## Claim C6: arrow-key navigation without wrapping -/

theorem wrapSub_one (n : Nat) (h1 : 1 ≤ n) (h2 : n < W64) : wrapSub n 1 = n - 1 := by
  simp only [wrapSub, W64] at *
  omega

theorem setSelectedOption_fields (m : MenuOptionList) (n : Nat) :
    (m.setSelectedOption n).options = m.options ∧
    (m.setSelectedOption n).cursorStartPos = m.cursorStartPos ∧
    (m.setSelectedOption n).topMenuOptionNum = m.topMenuOptionNum ∧
    (m.setSelectedOption n).bottomMenuOptionNum = m.bottomMenuOptionNum ∧
    (n < m.options.length → (m.setSelectedOption n).selectedOptionNum = some n) := by
  unfold MenuOptionList.setSelectedOption MenuOptionList.isValidOption
  split <;> simp_all

theorem setTopMenuOptionNum_fields (m : MenuOptionList) (n : Nat) :
    (m.setTopMenuOptionNum n).options = m.options ∧
    (m.setTopMenuOptionNum n).cursorStartPos = m.cursorStartPos ∧
    (m.setTopMenuOptionNum n).selectedOptionNum = m.selectedOptionNum := by
  unfold MenuOptionList.setTopMenuOptionNum
  split <;> simp_all

theorem setBottomMenuOptionNum_fields (m : MenuOptionList) (n : Nat) :
    (m.setBottomMenuOptionNum n).options = m.options ∧
    (m.setBottomMenuOptionNum n).cursorStartPos = m.cursorStartPos ∧
    (m.setBottomMenuOptionNum n).selectedOptionNum = m.selectedOptionNum := by
  unfold MenuOptionList.setBottomMenuOptionNum
  split <;> simp_all

theorem menuScrollAdjust_fields (m2 : MenuOptionList) (delta : Nat) :
    (menuScrollAdjust m2 delta).options = m2.options ∧
    (menuScrollAdjust m2 delta).selectedOptionNum = m2.selectedOptionNum ∧
    (menuScrollAdjust m2 delta).cursorStartPos.isSome = m2.cursorStartPos.isSome := by
  unfold menuScrollAdjust
  split
  · cases h2 : m2.cursorStartPos with
    | none => simp [h2]
    | some cp => simp [MenuOptionList.setCursorStartPos, h2]
  · simp

theorem printMenuOptionsEffect_fields (m : MenuOptionList) (env : RedrawEnv) :
    (m.printMenuOptionsEffect env).options = m.options ∧
    (m.printMenuOptionsEffect env).selectedOptionNum = m.selectedOptionNum ∧
    (m.printMenuOptionsEffect env).cursorStartPos.isSome = true := by
  unfold MenuOptionList.printMenuOptionsEffect
  cases hcs : m.cursorStartPos with
  | none =>
    simp only [hcs]
    rw [(menuScrollAdjust_fields _ _).1, (menuScrollAdjust_fields _ _).2.1,
      (menuScrollAdjust_fields _ _).2.2,
      (setBottomMenuOptionNum_fields _ _).1, (setBottomMenuOptionNum_fields _ _).2.1,
      (setBottomMenuOptionNum_fields _ _).2.2]
    simp [MenuOptionList.setCursorStartPos]
  | some cp =>
    simp only [hcs]
    rw [(menuScrollAdjust_fields _ _).1, (menuScrollAdjust_fields _ _).2.1,
      (menuScrollAdjust_fields _ _).2.2,
      (setBottomMenuOptionNum_fields _ _).1, (setBottomMenuOptionNum_fields _ _).2.1,
      (setBottomMenuOptionNum_fields _ _).2.2]
    simp [hcs]

theorem viewportInnerForAux_some (opts : List MenuOption) (newSel newTop : Nat) :
    ∀ (c i lc : Nat), (∀ j, i ≤ j → j < i + c → j < opts.length) →
      (viewportInnerForAux opts newSel newTop c i lc).isSome = true
  | 0, _, _, _ => rfl
  | c + 1, i, lc, h => by
    have hi : i < opts.length := h i (Nat.le_refl i) (by omega)
    obtain ⟨o, ho⟩ : ∃ o, opts.get? i = some o :=
      ⟨opts.get ⟨i, hi⟩, List.get?_eq_get hi⟩
    simp only [viewportInnerForAux, ho]
    split
    · rfl
    · exact viewportInnerForAux_some opts newSel newTop c (i + 1)
        (viewportLineCount o i newTop newSel lc)
        (fun j h1 h2 => h j (by omega) (by omega))

theorem viewportInnerForAux_ge (opts : List MenuOption) (newSel newTop : Nat) :
    ∀ (c i lc : Nat) (p : Nat × Nat),
      viewportInnerForAux opts newSel newTop c i lc = some p → i ≤ p.1
  | 0, i, lc, p, h => by
    simp only [viewportInnerForAux] at h
    obtain ⟨rfl⟩ := Option.some.inj h
    exact Nat.le_refl i
  | c + 1, i, lc, p, h => by
    simp only [viewportInnerForAux] at h
    split at h
    · exact absurd h (by simp)
    · split at h
      · obtain ⟨rfl⟩ := Option.some.inj h
        exact Nat.le_refl i
      · exact Nat.le_of_succ_le (viewportInnerForAux_ge opts newSel newTop c (i + 1) _ p h)

theorem viewportScrollLoop_some (opts : List MenuOption) (newSel : Nat)
    (hsel : newSel < opts.length) :
    ∀ (fuel newTop : Nat), newSel + 2 - newTop ≤ fuel → 0 < fuel →
      ∃ t, viewportScrollLoop opts newSel fuel newTop = some t
  | 0, _, _, hpos => absurd hpos (by omega)
  | fuel + 1, newTop, hle, _ => by
    have hinner : (viewportInnerFor opts newSel (newTop + 1) (newTop + 1) 0).isSome = true := by
      unfold viewportInnerFor
      exact viewportInnerForAux_some opts newSel (newTop + 1)
        (newSel + 1 - (newTop + 1)) (newTop + 1) 0 (fun j h1 h2 => by omega)
    obtain ⟨p, hp⟩ := Option.isSome_iff_exists.mp hinner
    simp only [viewportScrollLoop, hp]
    by_cases hbreak : newSel < p.1
    · exact ⟨newTop + 1, by simp [hbreak]⟩
    · have hp1 : p.1 < opts.length := by omega
      obtain ⟨o, ho⟩ : ∃ o, opts.get? p.1 = some o :=
        ⟨opts.get ⟨p.1, hp1⟩, List.get?_eq_get hp1⟩
      simp only [hbreak, if_false, ho]
      split
      · exact ⟨newTop + 1, rfl⟩
      · have hge := viewportInnerForAux_ge opts newSel (newTop + 1)
          (newSel + 1 - (newTop + 1)) (newTop + 1) 0 p hp
        exact viewportScrollLoop_some opts newSel hsel fuel (newTop + 1)
          (by omega) (by omega)

theorem arrowLoop_enabled_once (opts : List MenuOption) (down : Bool) (fuel sel : Nat)
    (stop : Bool) (hfuel : 0 < fuel)
    (hin : (arrowStep down opts.length sel).1 < opts.length)
    (hdis : ∀ o ∈ opts, o.disabled = false) :
    arrowLoop opts down fuel sel stop =
      some ((arrowStep down opts.length sel).1, stop || (arrowStep down opts.length sel).2) := by
  obtain ⟨f, rfl⟩ : ∃ f, fuel = f + 1 := ⟨fuel - 1, by omega⟩
  simp only [arrowLoop, List.get?_eq_get hin]
  rw [if_neg]
  intro hcon
  have := hdis _ (List.get_mem opts _ hin)
  rw [this] at hcon
  exact absurd hcon.1 (by simp)

/-- One Down press from selection `k` on a fully enabled list: the
selection moves to `k + 1` when `k` is not the last entry (setting
`stopProcessingInput.first`), and stays at `k` with no state change when
`k` is the last entry. -/
theorem navDown_step (m : MenuOptionList) (k : Nat) (c : Char) (env : RedrawEnv)
    (hlen : m.options.length < W64)
    (hdis : ∀ o ∈ m.options, o.disabled = false)
    (hk : k < m.options.length)
    (hcs : m.cursorStartPos.isSome = true) :
    (k < m.options.length - 1 →
      ∃ mm, navigationAction ⟨VK_DOWN, c⟩ m (some k) env =
          some ⟨mm, some (k + 1), true, false⟩ ∧
        mm.options = m.options ∧ mm.cursorStartPos.isSome = true ∧
        mm.selectedOptionNum = some (k + 1)) ∧
    (k = m.options.length - 1 →
      navigationAction ⟨VK_DOWN, c⟩ m (some k) env = some ⟨m, some k, false, false⟩) := by
  have hone : wrapSub m.options.length 1 = m.options.length - 1 :=
    wrapSub_one m.options.length (by omega) hlen
  have hstep : arrowStep true m.options.length k =
      (if k < m.options.length - 1 then (k + 1, true) else (k, false)) := by
    simp [arrowStep, hone]
  constructor
  · intro hklt
    have hstep2 : arrowStep true m.options.length k = (k + 1, true) := by
      rw [hstep, if_pos hklt]
    have hloop := arrowLoop_enabled_once m.options true (m.options.length + 1) k false
      (by omega) (by rw [hstep2]; omega) hdis
    rw [hstep2] at hloop
    have htarget : navSelectTarget ⟨VK_DOWN, c⟩ m (some k) = some (k + 1, true, false) := by
      simp [navSelectTarget, hloop]
    simp only [navigationAction, htarget]
    -- the update phase
    simp only [navApplyUpdate, Option.getD_some]
    rw [if_pos (by omega : k + 1 ≠ k)]
    obtain ⟨s1, s2, s3, s4, s5⟩ := setSelectedOption_fields m (k + 1)
    have hsel1 : (m.setSelectedOption (k + 1)).selectedOptionNum = some (k + 1) :=
      s5 (by omega)
    by_cases hv : k + 1 < m.topMenuOptionNum ∨ m.bottomMenuOptionNum < k + 1
    · rw [if_pos hv]
      obtain ⟨cp, hcp⟩ := Option.isSome_iff_exists.mp hcs
      rw [hcp]
      have hm2 : ∃ m2, (if k + 1 < m.topMenuOptionNum then
          some (if 0 < m.topMenuOptionNum then
            (m.setSelectedOption (k + 1)).setTopMenuOptionNum
              (wrapSub m.topMenuOptionNum (wrapSub k (k + 1)))
          else m.setSelectedOption (k + 1))
        else if m.bottomMenuOptionNum < wrapSub (m.setSelectedOption (k + 1)).options.length 1 then
          match viewportScrollLoop (m.setSelectedOption (k + 1)).options (k + 1) (k + 1 + 2)
              m.topMenuOptionNum with
          | none => none
          | some nt => some ((m.setSelectedOption (k + 1)).setTopMenuOptionNum nt)
        else some (m.setSelectedOption (k + 1))) = some m2 ∧
          m2.options = m.options ∧ m2.selectedOptionNum = some (k + 1) ∧
          m2.cursorStartPos = m.cursorStartPos := by
        by_cases hvt : k + 1 < m.topMenuOptionNum
        · rw [if_pos hvt]
          by_cases hz : 0 < m.topMenuOptionNum
          · rw [if_pos hz]
            obtain ⟨t1, t2, t3⟩ := setTopMenuOptionNum_fields (m.setSelectedOption (k + 1))
              (wrapSub m.topMenuOptionNum (wrapSub k (k + 1)))
            exact ⟨_, rfl, by rw [t1, s1], by rw [t3, hsel1], by rw [t2, s2]⟩
          · rw [if_neg hz]
            exact ⟨_, rfl, s1, hsel1, s2⟩
        · rw [if_neg hvt]
          by_cases hb : m.bottomMenuOptionNum < wrapSub (m.setSelectedOption (k + 1)).options.length 1
          · rw [if_pos hb]
            obtain ⟨t, ht⟩ := viewportScrollLoop_some (m.setSelectedOption (k + 1)).options
              (k + 1) (by rw [s1]; omega) (k + 1 + 2) m.topMenuOptionNum (by omega) (by omega)
            rw [ht]
            obtain ⟨t1, t2, t3⟩ := setTopMenuOptionNum_fields (m.setSelectedOption (k + 1)) t
            exact ⟨_, rfl, by rw [t1, s1], by rw [t3, hsel1], by rw [t2, s2]⟩
          · rw [if_neg hb]
            exact ⟨_, rfl, s1, hsel1, s2⟩
      obtain ⟨m2, hm2eq, hm2o, hm2s, hm2c⟩ := hm2
      rw [hm2eq]
      obtain ⟨p1, p2, p3⟩ := printMenuOptionsEffect_fields m2 env
      exact ⟨m2.printMenuOptionsEffect env, rfl, by rw [p1, hm2o], p3, by rw [p2, hm2s]⟩
    · rw [if_neg hv]
      have hget1 : ((m.setSelectedOption (k + 1)).getCursorPosFor k).isSome = true := by
        unfold MenuOptionList.getCursorPosFor
        rw [s2]
        obtain ⟨cp, hcp⟩ := Option.isSome_iff_exists.mp hcs
        rw [hcp]
        simp [s1, hk]
      have hget2 : ((m.setSelectedOption (k + 1)).getCursorPosFor (k + 1)).isSome = true := by
        unfold MenuOptionList.getCursorPosFor
        rw [s2]
        obtain ⟨cp, hcp⟩ := Option.isSome_iff_exists.mp hcs
        rw [hcp]
        simp only [s1]
        rw [if_pos (by omega)]
        simp
      obtain ⟨q1, hq1⟩ := Option.isSome_iff_exists.mp hget1
      obtain ⟨q2, hq2⟩ := Option.isSome_iff_exists.mp hget2
      rw [hq1, hq2]
      exact ⟨m.setSelectedOption (k + 1), rfl, s1, by rw [s2]; exact hcs, hsel1⟩
  · intro hkeq
    have hstep2 : arrowStep true m.options.length k = (k, false) := by
      rw [hstep, if_neg (by omega)]
    have hloop := arrowLoop_enabled_once m.options true (m.options.length + 1) k false
      (by omega) (by rw [hstep2]; exact hk) hdis
    rw [hstep2] at hloop
    have htarget : navSelectTarget ⟨VK_DOWN, c⟩ m (some k) = some (k, false, false) := by
      simp [navSelectTarget, hloop]
    simp only [navigationAction, htarget]
    simp only [navApplyUpdate, Option.getD_some]
    rw [if_neg (by omega : ¬(k ≠ k))]

/-- An Up press while entry 0 is selected leaves everything unchanged
(the do-while exits with the selection still at 0, and the handler's
update phase is skipped because the selection did not change). -/
theorem navUp_zero (m : MenuOptionList) (c : Char) (env : RedrawEnv)
    (hne : 0 < m.options.length)
    (hdis : ∀ o ∈ m.options, o.disabled = false) :
    navigationAction ⟨VK_UP, c⟩ m (some 0) env = some ⟨m, some 0, false, false⟩ := by
  have hstep : arrowStep false m.options.length 0 = (0, false) := by
    simp [arrowStep]
  have hloop := arrowLoop_enabled_once m.options false (m.options.length + 1) 0 false
    (by omega) (by rw [hstep]; exact hne) hdis
  rw [hstep] at hloop
  have htarget : navSelectTarget ⟨VK_UP, c⟩ m (some 0) = some (0, false, false) := by
    simp [navSelectTarget, hloop, VK_UP, VK_DOWN]
  simp only [navigationAction, htarget]
  simp only [navApplyUpdate, Option.getD_some]
  rw [if_neg (by omega : ¬((0 : Nat) ≠ 0))]

theorem iterateNavigation_down (m : MenuOptionList) (envs : Nat → RedrawEnv) (c : Char)
    (hlen : m.options.length < W64)
    (hdis : ∀ o ∈ m.options, o.disabled = false)
    (hsel : m.selectedOptionNum = some 0)
    (hcs : m.cursorStartPos.isSome = true) :
    ∀ j, j ≤ m.options.length - 1 →
      ∃ mm, iterateNavigation ⟨VK_DOWN, c⟩ envs j m (some 0) = some (mm, some j) ∧
        mm.options = m.options ∧ mm.cursorStartPos.isSome = true ∧
        mm.selectedOptionNum = some j
  | 0, _ => ⟨m, rfl, rfl, hcs, hsel⟩
  | j + 1, hj => by
    obtain ⟨mm, hit, ho, hc, hs⟩ := iterateNavigation_down m envs c hlen hdis hsel hcs j
      (by omega)
    have hdis2 : ∀ o ∈ mm.options, o.disabled = false := by rw [ho]; exact hdis
    have hstep := (navDown_step mm j c (envs j) (by rw [ho]; exact hlen) hdis2
      (by rw [ho]; omega) hc).1 (by rw [ho]; omega)
    obtain ⟨mm2, hnav, ho2, hc2, hs2⟩ := hstep
    refine ⟨mm2, ?_, by rw [ho2, ho], hc2, hs2⟩
    simp only [iterateNavigation, hit, hnav]

/-- **C6.**  For every menu list of `N ≥ 1` entries, none disabled, with
the selection established at entry 0 and a recorded menu origin:
pressing Down `N - 1` times moves the selection to entry `N - 1`; a
further Down press leaves both the handler's selection reference and the
list's recorded selection at `N - 1` (no wrap past the end); and
pressing Up while entry 0 is selected leaves the state completely
unchanged. -/
theorem down_up_no_wrap (m : MenuOptionList) (envs : Nat → RedrawEnv) (env1 env2 : RedrawEnv)
    (c0 c1 c2 : Char)
    (hne : 0 < m.options.length)
    (hlen : m.options.length < W64)
    (hdis : ∀ o ∈ m.options, o.disabled = false)
    (hsel : m.selectedOptionNum = some 0)
    (hcs : m.cursorStartPos.isSome = true) :
    (∃ mm, iterateNavigation ⟨VK_DOWN, c0⟩ envs (m.options.length - 1) m (some 0) =
        some (mm, some (m.options.length - 1)) ∧
      mm.selectedOptionNum = some (m.options.length - 1) ∧
      navigationAction ⟨VK_DOWN, c1⟩ mm (some (m.options.length - 1)) env1 =
        some ⟨mm, some (m.options.length - 1), false, false⟩) ∧
    navigationAction ⟨VK_UP, c2⟩ m (some 0) env2 = some ⟨m, some 0, false, false⟩ := by
  refine ⟨?_, navUp_zero m c2 env2 hne hdis⟩
  obtain ⟨mm, hit, ho, hc, hs⟩ := iterateNavigation_down m envs c0 hlen hdis hsel hcs
    (m.options.length - 1) (Nat.le_refl _)
  have hdis2 : ∀ o ∈ mm.options, o.disabled = false := by rw [ho]; exact hdis
  have hextra := (navDown_step mm (m.options.length - 1) c1 env1 (by rw [ho]; exact hlen)
    hdis2 (by rw [ho]; omega) hc).2 (by rw [ho])
  exact ⟨mm, hit, hs, hextra⟩

/-- Witness for C6 on a three-entry enabled list rendered at the origin:
two Down presses reach entry 2, the third leaves it there, and Up at
entry 0 is a no-op. -/
theorem down_up_no_wrap_witness :
    (∃ mm, iterateNavigation ⟨VK_DOWN, Char.ofNat 0⟩ (fun _ => ⟨⟨0, 0⟩, 0⟩)
        ((MenuOptionList.mk
          [mkMenuOption ("A".toList) none false ⟨false, false, false, false⟩,
           mkMenuOption ("B".toList) none false ⟨false, false, false, false⟩,
           mkMenuOption ("C".toList) none false ⟨false, false, false, false⟩]
          9 (some ⟨2, 0⟩) (some 0) 0 2 [] 0).options.length - 1)
        (MenuOptionList.mk
          [mkMenuOption ("A".toList) none false ⟨false, false, false, false⟩,
           mkMenuOption ("B".toList) none false ⟨false, false, false, false⟩,
           mkMenuOption ("C".toList) none false ⟨false, false, false, false⟩]
          9 (some ⟨2, 0⟩) (some 0) 0 2 [] 0) (some 0) =
        some (mm, some ((MenuOptionList.mk
          [mkMenuOption ("A".toList) none false ⟨false, false, false, false⟩,
           mkMenuOption ("B".toList) none false ⟨false, false, false, false⟩,
           mkMenuOption ("C".toList) none false ⟨false, false, false, false⟩]
          9 (some ⟨2, 0⟩) (some 0) 0 2 [] 0).options.length - 1)) ∧
      mm.selectedOptionNum = some ((MenuOptionList.mk
          [mkMenuOption ("A".toList) none false ⟨false, false, false, false⟩,
           mkMenuOption ("B".toList) none false ⟨false, false, false, false⟩,
           mkMenuOption ("C".toList) none false ⟨false, false, false, false⟩]
          9 (some ⟨2, 0⟩) (some 0) 0 2 [] 0).options.length - 1) ∧
      navigationAction ⟨VK_DOWN, Char.ofNat 0⟩ mm (some ((MenuOptionList.mk
          [mkMenuOption ("A".toList) none false ⟨false, false, false, false⟩,
           mkMenuOption ("B".toList) none false ⟨false, false, false, false⟩,
           mkMenuOption ("C".toList) none false ⟨false, false, false, false⟩]
          9 (some ⟨2, 0⟩) (some 0) 0 2 [] 0).options.length - 1)) ⟨⟨0, 0⟩, 0⟩ =
        some ⟨mm, some ((MenuOptionList.mk
          [mkMenuOption ("A".toList) none false ⟨false, false, false, false⟩,
           mkMenuOption ("B".toList) none false ⟨false, false, false, false⟩,
           mkMenuOption ("C".toList) none false ⟨false, false, false, false⟩]
          9 (some ⟨2, 0⟩) (some 0) 0 2 [] 0).options.length - 1), false, false⟩) ∧
    navigationAction ⟨VK_UP, Char.ofNat 0⟩
        (MenuOptionList.mk
          [mkMenuOption ("A".toList) none false ⟨false, false, false, false⟩,
           mkMenuOption ("B".toList) none false ⟨false, false, false, false⟩,
           mkMenuOption ("C".toList) none false ⟨false, false, false, false⟩]
          9 (some ⟨2, 0⟩) (some 0) 0 2 [] 0) (some 0) ⟨⟨0, 0⟩, 0⟩ =
      some ⟨(MenuOptionList.mk
          [mkMenuOption ("A".toList) none false ⟨false, false, false, false⟩,
           mkMenuOption ("B".toList) none false ⟨false, false, false, false⟩,
           mkMenuOption ("C".toList) none false ⟨false, false, false, false⟩]
          9 (some ⟨2, 0⟩) (some 0) 0 2 [] 0), some 0, false, false⟩ :=
  down_up_no_wrap
    (MenuOptionList.mk
      [mkMenuOption ("A".toList) none false ⟨false, false, false, false⟩,
       mkMenuOption ("B".toList) none false ⟨false, false, false, false⟩,
       mkMenuOption ("C".toList) none false ⟨false, false, false, false⟩]
      9 (some ⟨2, 0⟩) (some 0) 0 2 [] 0)
    (fun _ => ⟨⟨0, 0⟩, 0⟩) ⟨⟨0, 0⟩, 0⟩ ⟨⟨0, 0⟩, 0⟩ (Char.ofNat 0) (Char.ofNat 0) (Char.ofNat 0)
    (by decide) (by decide) (by decide) rfl rfl

end TMT

namespace TMT

/-! ## Claim C7: status-message expiry -/

/-- **C7** counterexample: a status message staged and issued at time
`T = 100` has *not* expired when `hasExpiredStatusMessage` is queried at
exactly `T + 5 = 105` — `difftime` is compared with a strict `>`
(`src/Console.cpp:1047`) — contradicting the claim that it returns true
at `T + 5`. -/
theorem statusMessage_not_expired_at_lifetime :
    (MenuOptionList.hasExpiredStatusMessage
        (((MenuOptionList.mk [] 9 none none 0 0 ("msg".toList) 0).issueStatusMessage 100).2)
        (100 + STATUS_MESSAGE_LIFETIME)).1 = false ∧
    (((MenuOptionList.mk [] 9 none none 0 0 ("msg".toList) 0).issueStatusMessage
        100).2).statusMessageIssueTime = 100 := by
  exact ⟨by decide, by decide⟩

/-- **C7** (amended).  For a message issued at time `T > 0`,
`hasExpiredStatusMessage` returns true exactly when queried strictly
after `T + 5` (`now - T > 5`), and false at `T + 5` or earlier; a true
result resets the issue timestamp to "none", so any immediately repeated
check returns false — true is returned at most once per issued
message. -/
theorem hasExpired_strictly_after_lifetime (m : MenuOptionList) (now now2 : Nat)
    (h : 0 < m.statusMessageIssueTime) :
    ((m.hasExpiredStatusMessage now).1 = true ↔
      (STATUS_MESSAGE_LIFETIME : Int) < (now : Int) - (m.statusMessageIssueTime : Int)) ∧
    ((m.hasExpiredStatusMessage now).1 = true →
      (m.hasExpiredStatusMessage now).2.statusMessageIssueTime = 0 ∧
      (((m.hasExpiredStatusMessage now).2).hasExpiredStatusMessage now2).1 = false) := by
  unfold MenuOptionList.hasExpiredStatusMessage
  rw [if_pos h]
  by_cases hc : (STATUS_MESSAGE_LIFETIME : Int) < (now : Int) - (m.statusMessageIssueTime : Int)
  · simp [hc, MenuOptionList.hasExpiredStatusMessage]
  · simp [hc]

/-- Witness for the amended C7 at `T = 100`, `now = 106`, `now2 = 106`. -/
theorem hasExpired_strictly_after_lifetime_witness :
    (((MenuOptionList.mk [] 9 none none 0 0 [] 100).hasExpiredStatusMessage 106).1 = true ↔
      (STATUS_MESSAGE_LIFETIME : Int) <
        (106 : Int) - ((MenuOptionList.mk [] 9 none none 0 0 [] 100).statusMessageIssueTime : Int)) ∧
    (((MenuOptionList.mk [] 9 none none 0 0 [] 100).hasExpiredStatusMessage 106).1 = true →
      (((MenuOptionList.mk [] 9 none none 0 0 [] 100).hasExpiredStatusMessage
          106).2).statusMessageIssueTime = 0 ∧
      (MenuOptionList.hasExpiredStatusMessage
          (((MenuOptionList.mk [] 9 none none 0 0 [] 100).hasExpiredStatusMessage 106).2)
          106).1 = false) :=
  hasExpired_strictly_after_lifetime (MenuOptionList.mk [] 9 none none 0 0 [] 100) 106 106
    (by decide)

/-! ## Claim C8: restoring from an empty saved-cursor stack -/

/-- **C8.** When the current screen's saved-cursor stack is empty,
`restoreSavedCursorPos` returns an empty optional ("nothing to restore")
and leaves the whole engine state unchanged; the empty first component
also records that no `setCursorPos` call was issued, so the console
cursor is untouched. -/
theorem restoreSavedCursorPos_empty (buf : OutputBuffer) (custom : Bool)
    (h : (buf.getCurrentBufferData custom false).savedCursors = []) :
    buf.restoreSavedCursorPos custom = (none, buf) := by
  unfold OutputBuffer.restoreSavedCursorPos
  simp [h]

/-- Witness for C8 on a freshly constructed engine. -/
theorem restoreSavedCursorPos_empty_witness :
    (OutputBuffer.init ⟨3, 4⟩).restoreSavedCursorPos true = (none, OutputBuffer.init ⟨3, 4⟩) :=
  restoreSavedCursorPos_empty (OutputBuffer.init ⟨3, 4⟩) true rfl

/-! ## Claim C4: alternate-screen round trip in virtualized mode -/

/-- An untracked `print` of a newline-free string changes nothing in the
tracked state, and an untracked `println` where the physical cursor
advances by exactly one row detects no scrolling; hence the whole replay
loop of `restorePreviousBuffer` leaves the engine state unchanged. -/
theorem replayContents_id (custom : Bool) (envs : Nat → PrintEnv)
    (henv : ∀ k2, (envs k2).rowAfter = (envs k2).cur0.y + 1) :
    ∀ (lines : List (List Char)) (buf : OutputBuffer) (k : Nat),
      (∀ l ∈ lines, countNewlines l = 0) →
      replayContents custom lines buf envs k = some buf
  | [], _, _, _ => rfl
  | [line], buf, k, hl => by
    have h0 : countNewlines line = 0 := hl line (by simp)
    rw [replayContents, print_false_eq, h0, applyScroll_zero]
  | line :: next :: rest, buf, k, hl => by
    have h0 : countNewlines line = 0 := hl line (by simp)
    have hn2 : replayContents custom (next :: rest) buf envs (k + 2) = some buf :=
      replayContents_id custom envs henv (next :: rest) buf (k + 2)
        (fun l hmem => hl l (by simp at hmem ⊢; tauto))
    have hnoscroll : ((countNewlines ['\n'] : Int) -
        (((envs (k + 1)).rowAfter : Int) - ((envs (k + 1)).cur0.y : Int))) ≤ 0 := by
      rw [henv (k + 1)]
      simp [countNewlines]
    simp only [replayContents, print_false_eq, h0, applyScroll_zero,
      applyScroll_noscroll buf custom (countNewlines ['\n']) (envs (k + 1)) hnoscroll]
    exact hn2

/-- **C4.**  In virtualized alternate-screen mode, `createAltBuffer`
(with a successfully created console handle) immediately followed by
`restorePreviousBuffer` restores the *entire* engine state — in
particular the now-current screen's recorded content
(`contents`/`contentsCursorData`), its origin coordinate and saved
cursors, and its recorded cursor visibility — exactly to the values
before the push.  The environment hypothesis says each replayed
`println` moves the physical cursor down by exactly one row (the console
does not hit its scroll limit during the replay); the content hypothesis
states the invariant that stored lines never contain a line terminator
(`print` never stores one). -/
theorem createAlt_restore_roundtrip (buf : OutputBuffer) (envs : Nat → PrintEnv)
    (hlines : ∀ l ∈ (buf.getCurrentBufferData true false).contents, countNewlines l = 0)
    (henv : ∀ k, (envs k).rowAfter = (envs k).cur0.y + 1) :
    ((buf.createAltBuffer true true).2).restorePreviousBuffer true envs = some buf := by
  have hpush : (buf.createAltBuffer true true).2 =
      { buf with altBufferData := BufferData.init :: buf.altBufferData } := rfl
  rw [hpush]
  have hclear : ({ buf with altBufferData := BufferData.init :: buf.altBufferData } :
      OutputBuffer).clear true true =
      { buf with altBufferData := BufferData.init :: buf.altBufferData } := by
    unfold OutputBuffer.clear
    simp [OutputBuffer.getCurrentBufferData, OutputBuffer.setCurrentBufferData, BufferData.init]
  unfold OutputBuffer.restorePreviousBuffer
  simp only [hclear]
  have hpop : ({ buf with
      altBufferData := (BufferData.init :: buf.altBufferData).tail } : OutputBuffer) = buf := by
    rfl
  simp only [List.tail_cons]
  have hcur : ({ buf with altBufferData := buf.altBufferData } : OutputBuffer) = buf := rfl
  rw [hcur]
  exact replayContents_id true envs henv _ buf 0 hlines

/-- Witness for C4: a primary screen with one stored line, some saved
cursors and a hidden cursor survives a push/pop pair untouched. -/
theorem createAlt_restore_roundtrip_witness :
    OutputBuffer.restorePreviousBuffer
        (OutputBuffer.createAltBuffer
          (OutputBuffer.mk (BufferData.mk [['h', 'i']] [[0, 1]] [⟨1, 2⟩] ⟨0, 3⟩ 4 false) [])
          true true).2 true (fun k => ⟨⟨0, k⟩, 80, k + 1⟩) =
      some (OutputBuffer.mk (BufferData.mk [['h', 'i']] [[0, 1]] [⟨1, 2⟩] ⟨0, 3⟩ 4 false) []) :=
  createAlt_restore_roundtrip
    (OutputBuffer.mk (BufferData.mk [['h', 'i']] [[0, 1]] [⟨1, 2⟩] ⟨0, 3⟩ 4 false) [])
    (fun k => ⟨⟨0, k⟩, 80, k + 1⟩) (by decide) (fun k => rfl)

/-! ## Claim C9: unmatched escape bytes -/

/-- **C9.**  (1) An escape byte that does not begin a recognised virtual
terminal sequence (and is not inside one) is treated by the tracking
loop as an ordinary character: the step leaves the detected-sequence
flag off and advances the visible column by exactly one, wrapping at the
console width like any glyph, without counting a line terminator.
(2) The scanning itself never fails: a `print` with buffer tracking
disabled succeeds on *every* input string, whatever escape bytes it
contains. -/
theorem unmatched_escape_is_ordinary :
    (∀ (st st1 : PrintLoopState) (startY width strPos : Nat) (tail : List Char),
      st.isDetected = false →
      matchTerminalSequence (VTSEscape :: tail) = none →
      printStep startY width strPos true VTSEscape tail st = some st1 →
      st1.cursor = (if st.cursor.x + 1 = width then (⟨0, st.cursor.y + 1⟩ : WinCoord)
        else ⟨st.cursor.x + 1, st.cursor.y⟩) ∧
      st1.isDetected = false ∧ st1.termSeqLength = 0 ∧
      st1.newlineCount = st.newlineCount) ∧
    (∀ (buf : OutputBuffer) (custom : Bool) (str : List Char) (env : PrintEnv),
      (buf.print custom str false env).isSome) := by
  constructor
  · intro st st1 startY width strPos tail hdet hm h
    have hnl : ¬(VTSEscape = '\n') := by decide
    simp only [printStep, hm, hdet, if_pos, eq_self_iff_true, if_true, Bool.false_and,
      hnl, if_false] at h
    split at h
    · exact absurd h (by simp)
    · split at h
      · exact absurd h (by simp)
      · obtain ⟨rfl⟩ := Option.some.inj h
        refine ⟨?_, rfl, rfl, by simp [hnl]⟩
        simp [hnl]
  · intro buf custom str env
    rw [print_false_eq]
    rfl

/-- Witness for C9: the lone escape byte (no recognisable sequence
follows) processed at column 0 of an empty tracked buffer, plus an
untracked `print` of that byte. -/
theorem unmatched_escape_is_ordinary_witness :
    ((⟨[['\x1b']], [[0]], ⟨1, 0⟩, 0, false, 0, some true, 0⟩ : PrintLoopState).cursor =
      (if (⟨[], [], ⟨0, 0⟩, 0, false, 0, none, 0⟩ : PrintLoopState).cursor.x + 1 = 80 then
        (⟨0, (⟨[], [], ⟨0, 0⟩, 0, false, 0, none, 0⟩ : PrintLoopState).cursor.y + 1⟩ : WinCoord)
      else ⟨(⟨[], [], ⟨0, 0⟩, 0, false, 0, none, 0⟩ : PrintLoopState).cursor.x + 1,
        (⟨[], [], ⟨0, 0⟩, 0, false, 0, none, 0⟩ : PrintLoopState).cursor.y⟩) ∧
      (⟨[['\x1b']], [[0]], ⟨1, 0⟩, 0, false, 0, some true, 0⟩ : PrintLoopState).isDetected =
        false ∧
      (⟨[['\x1b']], [[0]], ⟨1, 0⟩, 0, false, 0, some true, 0⟩ : PrintLoopState).termSeqLength =
        0 ∧
      (⟨[['\x1b']], [[0]], ⟨1, 0⟩, 0, false, 0, some true, 0⟩ : PrintLoopState).newlineCount =
        (⟨[], [], ⟨0, 0⟩, 0, false, 0, none, 0⟩ : PrintLoopState).newlineCount) ∧
    ((OutputBuffer.init ⟨0, 0⟩).print false ['\x1b'] false ⟨⟨0, 0⟩, 80, 0⟩).isSome :=
  ⟨unmatched_escape_is_ordinary.1
      ⟨[], [], ⟨0, 0⟩, 0, false, 0, none, 0⟩
      ⟨[['\x1b']], [[0]], ⟨1, 0⟩, 0, false, 0, some true, 0⟩
      0 80 0 [] rfl (by decide) (by decide),
   unmatched_escape_is_ordinary.2 (OutputBuffer.init ⟨0, 0⟩) false ['\x1b'] ⟨⟨0, 0⟩, 80, 0⟩⟩

/-! ## Claim C10: timed-out wait with no prior selection -/

/-- **C10.** When no option was selected beforehand, no status message is
staged or pending, and the initial `waitForInput` call times out (returns
no key), `waitForSelection` exits its loop immediately and returns an
optional containing index 0 — the default initial selection — rather
than an empty optional, leaving the menu state unchanged. -/
theorem waitForSelection_timeout_returns_default (m : MenuOptionList) (env : SelectionEnv)
    (fuel : Nat) (hsel : m.selectedOptionNum = none) (hmsg : m.statusMessage = [])
    (hissue : m.statusMessageIssueTime = 0) (hkey : env.keys 0 = none) (hfuel : 0 < fuel) :
    waitForSelection m env fuel = some (some 0, m) := by
  have hp : printStatusMessageEffect m (env.statusEnvs 0) = some (false, m) := by
    unfold printStatusMessageEffect
    simp [hmsg]
  obtain ⟨f, rfl⟩ : ∃ f, fuel = f + 1 := ⟨fuel - 1, by omega⟩
  simp only [waitForSelection, hp]
  simp only [selectionLoop, hkey, MenuOptionList.hasActiveStatusMessage, hissue, hsel]
  simp

/-- Witness for C10: an unselected three-entry menu whose first wait
times out. -/
theorem waitForSelection_timeout_returns_default_witness :
    waitForSelection
        ⟨[mkMenuOption ("A".toList) none false ⟨false, false, false, false⟩],
         9, none, none, 0, 0, [], 0⟩
        ⟨fun _ => none, fun _ => ⟨⟨0, 0⟩, 0⟩, fun _ => ⟨0, 0⟩, fun _ => 0⟩ 1 =
      some (some 0,
        ⟨[mkMenuOption ("A".toList) none false ⟨false, false, false, false⟩],
         9, none, none, 0, 0, [], 0⟩) :=
  waitForSelection_timeout_returns_default _ _ 1 rfl rfl rfl rfl (by decide)

/-! ## Claim C3: evolution of the scroll offsets -/

theorem altOffsets_length (buf : OutputBuffer) :
    (altOffsets buf).length = buf.altBufferData.length := by
  simp [altOffsets]

end TMT
